import Mathlib

/-!
Verification of the RSGISLib raster-calculation sources against their
natural-language specification.

The development shallowly embeds the C++ sources:

* `RSGISDEMTools.cpp` — the per-window terrain calculation units
  (`RSGISCalcSlope`, `RSGISCalcAspect`, `RSGISCalcHillShade`,
  `RSGISCalcRayIncidentAngle`, `RSGISCalcRayExitanceAngle`,
  `RSGISFillDEMHoles`): `float`/`double` values become `ℝ`, the
  `float ***dataBlock` window cube becomes a function `ℕ → ℕ → ℕ → ℝ`
  (band, row, column), thrown `RSGISImageCalcException`s become
  `Except.error` with the source's message string, and an IEEE NaN
  produced by the flat-terrain branch becomes `Option.none` (IEEE
  comparisons against NaN are false, which the embedding mirrors by
  propagating `none` untouched through the later adjustment branches).
* `RSGISCmdImageCalibration.cpp` — the calibration command wrappers.
  Their GDAL side effects are embedded as a `RunTrace`: the result,
  the list of dataset handles still open when the function returns
  (a `GDALOpen` that succeeded and was not yet `GDALClose`d), and
  whether the output-producing `calcImage` call was reached.
* `RSGISImageStatistics.h` — the statistics calculation unit.  The
  unimplemented protocol overloads are literal `throw` stubs in the
  header and are embedded as such.  The body of the implemented
  overload is not part of the sources, so the one-pass/two-pass
  standard deviation is modelled from the spec (see the doc comments
  on `welfordStep` and `twoPassStdDev`).
-/

/-! ## Shared constants of RSGISDEMTools.cpp -/

/-- `const double degreesToRadians = M_PI / 180.0;` -/
noncomputable def degreesToRadians : ℝ := Real.pi / 180

/-- `const double radiansToDegrees = 180.0 / M_PI;` -/
noncomputable def radiansToDegrees : ℝ := 180 / Real.pi

/-- C `atan2(y, x)`: the argument of the complex number `x + y·i`,
in the interval `(-π, π]`. -/
noncomputable def atan2 (y x : ℝ) : ℝ := Complex.arg ⟨x, y⟩

/-- Message of the window-size check shared by every terrain unit in
`RSGISDEMTools.cpp`. -/
def winSizeErrMsg : String := "Window size must be equal to 3 for the calculate of slope."

/-- Message of the band-range check shared by every terrain unit in
`RSGISDEMTools.cpp`. -/
def bandErrMsg : String := "Specified image band is not within the image."

/-! ## RSGISCalcSlope -/

/-- The local `dx` of `RSGISCalcSlope::calcImageValue`. -/
noncomputable def slopeDx (band : ℕ) (ewRes : ℝ) (dataBlock : ℕ → ℕ → ℕ → ℝ) : ℝ :=
  ((dataBlock band 0 0 + dataBlock band 1 0 + dataBlock band 1 0 + dataBlock band 2 0) -
   (dataBlock band 0 2 + dataBlock band 1 2 + dataBlock band 1 2 + dataBlock band 2 2)) / ewRes

/-- The local `dy` of `RSGISCalcSlope::calcImageValue`. -/
noncomputable def slopeDy (band : ℕ) (nsRes : ℝ) (dataBlock : ℕ → ℕ → ℕ → ℝ) : ℝ :=
  ((dataBlock band 2 0 + dataBlock band 2 1 + dataBlock band 2 1 + dataBlock band 2 2) -
   (dataBlock band 0 0 + dataBlock band 0 1 + dataBlock band 0 1 + dataBlock band 0 2)) / nsRes

/-- `slopeRad = atan(sqrt((dx * dx) + (dy * dy))/8);` -/
noncomputable def slopeRadians (band : ℕ) (ewRes nsRes : ℝ) (dataBlock : ℕ → ℕ → ℕ → ℝ) : ℝ :=
  Real.arctan (Real.sqrt (slopeDx band ewRes dataBlock * slopeDx band ewRes dataBlock +
    slopeDy band nsRes dataBlock * slopeDy band nsRes dataBlock) / 8)

/-- `RSGISCalcSlope::calcImageValue(float ***dataBlock, int numBands, int winSize,
float *output)`.  `outType == 0` selects degrees, anything else radians. -/
noncomputable def RSGISCalcSlope.calcImageValue (band : ℕ) (ewRes nsRes : ℝ) (outType : ℤ)
    (dataBlock : ℕ → ℕ → ℕ → ℝ) (numBands : ℕ) (winSize : ℤ) : Except String ℝ :=
  if winSize ≠ 3 then Except.error winSizeErrMsg
  else if ¬ (band < numBands) then Except.error bandErrMsg
  else if outType = 0 then Except.ok (slopeRadians band ewRes nsRes dataBlock * radiansToDegrees)
  else Except.ok (slopeRadians band ewRes nsRes dataBlock)

/-! ## RSGISCalcAspect -/

/-- The local `dx` of `RSGISCalcAspect::calcImageValue` (note the sign:
column 2 minus column 0, the opposite of `slopeDx`). -/
noncomputable def aspectDx (band : ℕ) (ewRes : ℝ) (dataBlock : ℕ → ℕ → ℕ → ℝ) : ℝ :=
  ((dataBlock band 0 2 + dataBlock band 1 2 + dataBlock band 1 2 + dataBlock band 2 2) -
   (dataBlock band 0 0 + dataBlock band 1 0 + dataBlock band 1 0 + dataBlock band 2 0)) / ewRes

/-- The local `dy` of `RSGISCalcAspect::calcImageValue` (same formula as `slopeDy`). -/
noncomputable def aspectDy (band : ℕ) (nsRes : ℝ) (dataBlock : ℕ → ℕ → ℕ → ℝ) : ℝ :=
  ((dataBlock band 2 0 + dataBlock band 2 1 + dataBlock band 2 1 + dataBlock band 2 2) -
   (dataBlock band 0 0 + dataBlock band 0 1 + dataBlock band 0 1 + dataBlock band 0 2)) / nsRes

/-- `if (aspect < 0) { aspect += 360.0; }` lifted over the NaN case (the IEEE
comparison `NaN < 0` is false, so `none` passes through). -/
noncomputable def aspectAdjustNeg : Option ℝ → Option ℝ
  | none => none
  | some a => if a < 0 then some (a + 360) else some a

/-- `if (aspect == 360.0) { aspect = 0.0; }` lifted over the NaN case
(false for NaN, so `none` passes through). -/
noncomputable def aspectAdjust360 : Option ℝ → Option ℝ
  | none => none
  | some a => if a = 360 then some 0 else some a

/-- The aspect value written by `RSGISCalcAspect::calcImageValue` after the
`atan2`, the flat-area NaN override and both adjustments. -/
noncomputable def aspectValue (band : ℕ) (ewRes nsRes : ℝ)
    (dataBlock : ℕ → ℕ → ℕ → ℝ) : Option ℝ :=
  let dx := aspectDx band ewRes dataBlock
  let dy := aspectDy band nsRes dataBlock
  aspectAdjust360 (aspectAdjustNeg
    (if dx = 0 ∧ dy = 0 then none else some (atan2 (-dx) dy * radiansToDegrees)))

/-- `RSGISCalcAspect::calcImageValue(float ***dataBlock, int numBands, int winSize,
float *output)`.  The output is `none` when the written value is the NaN sentinel. -/
noncomputable def RSGISCalcAspect.calcImageValue (band : ℕ) (ewRes nsRes : ℝ)
    (dataBlock : ℕ → ℕ → ℕ → ℝ) (numBands : ℕ) (winSize : ℤ) : Except String (Option ℝ) :=
  if winSize ≠ 3 then Except.error winSizeErrMsg
  else if ¬ (band < numBands) then Except.error bandErrMsg
  else Except.ok (aspectValue band ewRes nsRes dataBlock)

/-! ## RSGISCalcHillShade -/

/-- The local `dx` of `RSGISCalcHillShade::calcImageValue`
(column 2 minus column 0, divided by `ewRes*8`). -/
noncomputable def hillShadeDx (band : ℕ) (ewRes : ℝ) (dataBlock : ℕ → ℕ → ℕ → ℝ) : ℝ :=
  ((dataBlock band 0 2 + dataBlock band 1 2 + dataBlock band 1 2 + dataBlock band 2 2) -
   (dataBlock band 0 0 + dataBlock band 1 0 + dataBlock band 1 0 + dataBlock band 2 0)) / (ewRes * 8)

/-- The local `dy` of `RSGISCalcHillShade::calcImageValue`
(row 0 minus row 2, divided by `nsRes*8`). -/
noncomputable def hillShadeDy (band : ℕ) (nsRes : ℝ) (dataBlock : ℕ → ℕ → ℕ → ℝ) : ℝ :=
  ((dataBlock band 0 0 + dataBlock band 0 1 + dataBlock band 0 1 + dataBlock band 0 2) -
   (dataBlock band 2 0 + dataBlock band 2 1 + dataBlock band 2 1 + dataBlock band 2 2)) / (nsRes * 8)

/-- `RSGISCalcHillShade::calcImageValue(float ***dataBlock, int numBands, int winSize,
float *output)`.  The `cang` expression transcribes the source literally; in
particular the sine argument is `aspect - (sunAzimuth-M_PI/2 * degreesToRadians)`,
which by C precedence parenthesises as `aspect - (sunAzimuth - (M_PI/2) * d2r)`. -/
noncomputable def RSGISCalcHillShade.calcImageValue (band : ℕ)
    (ewRes nsRes sunZenith sunAzimuth : ℝ) (dataBlock : ℕ → ℕ → ℕ → ℝ)
    (numBands : ℕ) (winSize : ℤ) : Except String ℝ :=
  if winSize ≠ 3 then Except.error winSizeErrMsg
  else if ¬ (band < numBands) then Except.error bandErrMsg
  else
    let dx := hillShadeDx band ewRes dataBlock
    let dy := hillShadeDy band nsRes dataBlock
    let xx_plus_yy := dx * dx + dy * dy
    let aspect := atan2 dy dx
    let cang := (Real.sin (sunZenith * degreesToRadians) -
        Real.cos (sunZenith * degreesToRadians) * Real.sqrt xx_plus_yy *
        Real.sin (aspect - (sunAzimuth - Real.pi / 2 * degreesToRadians))) /
        Real.sqrt (1 + 1 * xx_plus_yy)
    if cang ≤ 0 then Except.ok 1 else Except.ok (1 + 254 * cang)

/-- The shade value exactly as the claim words it: the shade angle is
`sin(aspect - (sunAzimuth - (M_PI/2) * degreesToRadians))`, with `M_PI/2`
multiplied by the degrees-to-radians factor before the subtraction from
`sunAzimuth`, and no unit-conversion correction applied anywhere. -/
noncomputable def hillShadeClaimValue (band : ℕ)
    (ewRes nsRes sunZenith sunAzimuth : ℝ) (dataBlock : ℕ → ℕ → ℕ → ℝ) : ℝ :=
  let dx := hillShadeDx band ewRes dataBlock
  let dy := hillShadeDy band nsRes dataBlock
  let xx_plus_yy := dx * dx + dy * dy
  let aspect := atan2 dy dx
  let shadeAngle := aspect - (sunAzimuth - (Real.pi / 2) * degreesToRadians)
  let cang := (Real.sin (sunZenith * degreesToRadians) -
      Real.cos (sunZenith * degreesToRadians) * Real.sqrt xx_plus_yy *
      Real.sin shadeAngle) / Real.sqrt (1 + 1 * xx_plus_yy)
  if cang ≤ 0 then 1 else 1 + 254 * cang

/-! ## RSGISCalcRayIncidentAngle / RSGISCalcRayExitanceAngle -/

/-- `slope = (slopeRad * radiansToDegrees);` as computed inside the incidence and
exitance units (their `dxSlope`/`dySlope`/`slopeRad` repeat `RSGISCalcSlope`). -/
noncomputable def slopeDegrees (band : ℕ) (ewRes nsRes : ℝ)
    (dataBlock : ℕ → ℕ → ℕ → ℝ) : ℝ :=
  slopeRadians band ewRes nsRes dataBlock * radiansToDegrees

/-- `outputValue = acos((pA*rA)+(pB*rB)+(pC*rC)) * radiansToDegrees;` of
`RSGISCalcRayIncidentAngle::calcImageValue` before the `isnan` substitution.
On flat windows the aspect is NaN (`none`), and the IEEE NaN propagates through
`cos`, `sin`, `*`, `+` and `acos` to the output value, hence the `Option.map`-like
shape.  (`zenith`/`azimuth` stand for the unit's sun angles; the exitance unit
evaluates the same expression at the view angles.) -/
noncomputable def rayAngleRawValue (band : ℕ) (ewRes nsRes zenith azimuth : ℝ)
    (dataBlock : ℕ → ℕ → ℕ → ℝ) : Option ℝ :=
  match aspectValue band ewRes nsRes dataBlock with
  | none => none
  | some aspect =>
    let slope := slopeDegrees band ewRes nsRes dataBlock
    let pA := Real.sin (slope * degreesToRadians) * Real.cos (aspect * degreesToRadians)
    let pB := Real.sin (slope * degreesToRadians) * Real.sin (aspect * degreesToRadians)
    let pC := Real.cos (slope * degreesToRadians)
    let rA := Real.sin (zenith * degreesToRadians) * Real.cos (azimuth * degreesToRadians)
    let rB := Real.sin (zenith * degreesToRadians) * Real.sin (azimuth * degreesToRadians)
    let rC := Real.cos (zenith * degreesToRadians)
    some (Real.arccos (pA * rA + pB * rB + pC * rC) * radiansToDegrees)

/-- `RSGISCalcRayIncidentAngle::calcImageValue(float ***dataBlock, int numBands,
int winSize, float *output)`: `if(boost::math::isnan(outputValue)) outputValue =
sunZenith;`. -/
noncomputable def RSGISCalcRayIncidentAngle.calcImageValue (band : ℕ)
    (ewRes nsRes sunZenith sunAzimuth : ℝ) (dataBlock : ℕ → ℕ → ℕ → ℝ)
    (numBands : ℕ) (winSize : ℤ) : Except String ℝ :=
  if winSize ≠ 3 then Except.error winSizeErrMsg
  else if ¬ (band < numBands) then Except.error bandErrMsg
  else
    match rayAngleRawValue band ewRes nsRes sunZenith sunAzimuth dataBlock with
    | none => Except.ok sunZenith
    | some v => Except.ok v

/-- `RSGISCalcRayExitanceAngle::calcImageValue(float ***dataBlock, int numBands,
int winSize, float *output)`: `if(boost::math::isnan(outputValue)) outputValue = 0;`. -/
noncomputable def RSGISCalcRayExitanceAngle.calcImageValue (band : ℕ)
    (ewRes nsRes viewZenith viewAzimuth : ℝ) (dataBlock : ℕ → ℕ → ℕ → ℝ)
    (numBands : ℕ) (winSize : ℤ) : Except String ℝ :=
  if winSize ≠ 3 then Except.error winSizeErrMsg
  else if ¬ (band < numBands) then Except.error bandErrMsg
  else
    match rayAngleRawValue band ewRes nsRes viewZenith viewAzimuth dataBlock with
    | none => Except.ok 0
    | some v => Except.ok v

/-! ## RSGISFillDEMHoles -/

/-- `RSGISFillDEMHoles::calcImageValue(float ***dataBlock, int numBands, int winSize,
float *output)`.  The constructor fixes `numOutBands = 3`.  `midPoint =
floor(((float)winSize)/2.0)`.  When the centre pixel of band 0 equals `holeValue`
nothing is written, so the output buffer is returned untouched; the member `change`
is never assigned by this method, so the returned flag is the flag passed in. -/
noncomputable def RSGISFillDEMHoles.calcImageValue (holeValue : ℝ)
    (dataBlock : ℕ → ℕ → ℕ → ℝ) (numBands : ℕ) (winSize : ℤ)
    (output : ℕ → ℝ) (change : Bool) : Except String ((ℕ → ℝ) × Bool) :=
  if numBands ≠ 3 then Except.error "There should be 3 input and 3 output image bands."
  else
    let midPoint : ℕ := (Int.fdiv winSize 2).toNat
    if dataBlock 0 midPoint midPoint = holeValue then
      Except.ok (output, change)
    else
      Except.ok (fun j =>
        if j = 0 then dataBlock 0 midPoint midPoint
        else if j = 1 then dataBlock 1 midPoint midPoint
        else if j = 2 then dataBlock 2 midPoint midPoint
        else output j, change)

/-! ## RSGISCmdImageCalibration.cpp command wrappers

The GDAL dataset side effects of the command wrappers are embedded as a
`RunTrace`.  A `GDALOpen` call is modelled by the `openOk` flag of the
corresponding input description (`false` means GDAL returned `NULL`), a
successful open pushes the image path onto the open-handle list and a
`GDALClose` removes it.  `outputProduced` records whether the wrapper reached
its output-writing `calcImage` call.  The `catch` blocks of the wrappers only
rethrow the message as an `RSGISCmdException`, which keeps the message intact,
so they are not modelled separately. -/

/-- Observable effects of one command-wrapper run. -/
structure RunTrace where
  result : Except String Unit
  openHandles : List String
  outputProduced : Bool

/-- `rsgis::cmds::CmdsLandsatRadianceGainsOffsets` together with the two facts
the wrapper obtains from GDAL for its `imagePath`: whether `GDALOpen` succeeds
(`openOk`) and the opened dataset's `GetRasterCount()` (`numRasterBands`). -/
structure CmdsLandsatRadianceGainsOffsets where
  imagePath : String
  bandName : String
  band : ℕ
  lMin : ℤ
  lMax : ℤ
  qCalMin : ℤ
  qCalMax : ℤ
  openOk : Bool
  numRasterBands : ℕ

/-- The dataset-opening loop of `executeConvertLandsat2Radiance`: for each band
description, open the image (throwing `"Could not open image ..."` on failure,
with every earlier handle still open) and check `(*iterBands).band >
numRasterBands` (throwing with the just-opened handle also still open). -/
def convertLandsat2RadianceOpenLoop :
    List CmdsLandsatRadianceGainsOffsets → List String → Except String Unit × List String
  | [], opened => (Except.ok (), opened)
  | s :: rest, opened =>
    if s.openOk = false then
      (Except.error ("Could not open image " ++ s.imagePath), opened)
    else if s.numRasterBands < s.band then
      (Except.error "You have specified a band which is not within the image", opened ++ [s.imagePath])
    else
      convertLandsat2RadianceOpenLoop rest (opened ++ [s.imagePath])

/-- `executeConvertLandsat2Radiance`: runs the opening loop; on success it calls
`calcImage` (producing the output image) and then closes every dataset, while a
thrown exception propagates out of the `try` block past all `GDALClose` calls,
leaving every handle opened so far open. -/
def executeConvertLandsat2Radiance
    (landsatRadGainOffs : List CmdsLandsatRadianceGainsOffsets) : RunTrace :=
  match convertLandsat2RadianceOpenLoop landsatRadGainOffs [] with
  | (Except.ok _, _) => { result := Except.ok (), openHandles := [], outputProduced := true }
  | (Except.error e, opened) =>
    { result := Except.error e, openHandles := opened, outputProduced := false }

/-- `executeConvertRadiance2TOARefl` restricted to its dataset bookkeeping:
open the input image, compare the supplied coefficient count `numBands` with
`GetRasterCount()`, and only then build the calculation and produce the output.
On the mismatch path the source explicitly closes the dataset (`GDALClose`,
`delete[]`) before throwing. -/
def executeConvertRadiance2TOARefl (openOk : Bool) (inputImage : String)
    (numRasterBands : ℕ) (numBands : ℕ) : RunTrace :=
  if openOk = false then
    { result := Except.error ("Could not open image " ++ inputImage),
      openHandles := [], outputProduced := false }
  else if numBands ≠ numRasterBands then
    { result := Except.error "The number of input image bands and solar irradiance values are different.",
      openHandles := [], outputProduced := false }
  else
    { result := Except.ok (), openHandles := [], outputProduced := true }

/-- `executeLandsatTMCloudFMask` restricted to its dataset bookkeeping: the four
input datasets are opened in order (TOA reflectance, thermal, saturation, valid
area) with an integer-data-type check after the first; the saturation band-count
check `(numReflBands+numThermBands) != numSaturateBands` throws, and the four
`GDALClose` calls that the source places inside that `if` body sit after the
`throw` statement, so they are unreachable and all four handles stay open.  On
the success path every dataset is closed at the end of the run. -/
def executeLandsatTMCloudFMask (reflOpenOk : Bool) (inputTOAImage : String)
    (reflIsIntegerType : Bool) (numReflBands : ℕ)
    (thermOpenOk : Bool) (inputThermalImage : String) (numThermBands : ℕ)
    (satOpenOk : Bool) (inputSaturateImage : String) (numSaturateBands : ℕ)
    (validOpenOk : Bool) (validImg : String) : RunTrace :=
  if reflOpenOk = false then
    { result := Except.error ("Could not open image " ++ inputTOAImage),
      openHandles := [], outputProduced := false }
  else if reflIsIntegerType = false then
    { result := Except.error "Input TOA image must be of an integer data type.",
      openHandles := [inputTOAImage], outputProduced := false }
  else if thermOpenOk = false then
    { result := Except.error ("Could not open image " ++ inputThermalImage),
      openHandles := [inputTOAImage], outputProduced := false }
  else if satOpenOk = false then
    { result := Except.error ("Could not open image " ++ inputSaturateImage),
      openHandles := [inputTOAImage, inputThermalImage], outputProduced := false }
  else if validOpenOk = false then
    { result := Except.error ("Could not open image " ++ validImg),
      openHandles := [inputTOAImage, inputThermalImage, inputSaturateImage],
      outputProduced := false }
  else if numReflBands + numThermBands ≠ numSaturateBands then
    { result := Except.error "The number of saturation bands is not equal to the number of refl and thermal bands.",
      openHandles := [inputTOAImage, inputThermalImage, inputSaturateImage, validImg],
      outputProduced := false }
  else
    { result := Except.ok (), openHandles := [], outputProduced := true }

/-! ## RSGISImageStatistics.h — RSGISCalcImageStatistics -/

/-- The `OGREnvelope` passed to the envelope overloads. -/
structure OGREnvelope where
  minX : ℝ
  maxX : ℝ
  minY : ℝ
  maxY : ℝ

/-- The mutable per-band accumulator state of `RSGISCalcImageStatistics`
(header fields, per-band arrays as lists). -/
structure RSGISCalcImageStatisticsState where
  useNoData : Bool
  noDataVal : ℝ
  onePassSD : Bool
  calcSD : Bool
  numInputBands : ℤ
  firstMean : List Bool
  firstSD : List Bool
  calcMean : Bool
  n : List ℕ
  mean : List ℝ
  meanSum : List ℝ
  sumSq : List ℝ
  min : List ℝ
  max : List ℝ
  sumDiffZ : List ℝ
  diffZ : ℝ

/-- `calcImageValue(float *bandValues, int numBands, double *output)`:
`{throw RSGISImageCalcException("Not implemented");}`.  A result would be the
updated state plus the written output vector; the stub throws instead. -/
def RSGISCalcImageStatistics.calcImageValueBandsOutput
    (st : RSGISCalcImageStatisticsState) (bandValues : List ℝ) (numBands : ℤ) :
    Except String (RSGISCalcImageStatisticsState × List ℝ) :=
  Except.error "Not implemented"

/-- `calcImageValue(long *intBandValues, unsigned int numIntVals, float
*floatBandValues, unsigned int numfloatVals)`: `{throw ...("Not implemented");}`. -/
def RSGISCalcImageStatistics.calcImageValueIntFloat
    (st : RSGISCalcImageStatisticsState) (intBandValues : List ℤ) (numIntVals : ℕ)
    (floatBandValues : List ℝ) (numfloatVals : ℕ) :
    Except String RSGISCalcImageStatisticsState :=
  Except.error "Not implemented"

/-- `calcImageValue(long *intBandValues, unsigned int numIntVals, float
*floatBandValues, unsigned int numfloatVals, double *output)`:
`{throw ...("Not implemented");}`. -/
def RSGISCalcImageStatistics.calcImageValueIntFloatOutput
    (st : RSGISCalcImageStatisticsState) (intBandValues : List ℤ) (numIntVals : ℕ)
    (floatBandValues : List ℝ) (numfloatVals : ℕ) :
    Except String (RSGISCalcImageStatisticsState × List ℝ) :=
  Except.error "Not implemented"

/-- `calcImageValue(long *intBandValues, unsigned int numIntVals, float
*floatBandValues, unsigned int numfloatVals, OGREnvelope extent)`:
`{throw ...("Not implemented");}`. -/
def RSGISCalcImageStatistics.calcImageValueIntFloatEnvelope
    (st : RSGISCalcImageStatisticsState) (intBandValues : List ℤ) (numIntVals : ℕ)
    (floatBandValues : List ℝ) (numfloatVals : ℕ) (extent : OGREnvelope) :
    Except String RSGISCalcImageStatisticsState :=
  Except.error "Not implemented"

/-- `calcImageValue(float *bandValues, int numBands, OGREnvelope extent)`:
`{throw ...("Not implemented");}`. -/
def RSGISCalcImageStatistics.calcImageValueBandsEnvelope
    (st : RSGISCalcImageStatisticsState) (bandValues : List ℝ) (numBands : ℤ)
    (extent : OGREnvelope) : Except String RSGISCalcImageStatisticsState :=
  Except.error "Not implemented"

/-- `calcImageValue(float *bandValues, int numBands, double *output, OGREnvelope
extent)`: `{throw ...("Not implemented");}`. -/
def RSGISCalcImageStatistics.calcImageValueBandsOutputEnvelope
    (st : RSGISCalcImageStatisticsState) (bandValues : List ℝ) (numBands : ℤ)
    (extent : OGREnvelope) :
    Except String (RSGISCalcImageStatisticsState × List ℝ) :=
  Except.error "Not implemented"

/-- `calcImageValue(float ***dataBlock, int numBands, int winSize, double
*output)`: `{throw ...("Not implemented");}`. -/
def RSGISCalcImageStatistics.calcImageValueWindow
    (st : RSGISCalcImageStatisticsState) (dataBlock : ℕ → ℕ → ℕ → ℝ)
    (numBands : ℤ) (winSize : ℤ) :
    Except String (RSGISCalcImageStatisticsState × List ℝ) :=
  Except.error "Not implemented"

/-- `calcImageValue(float ***dataBlock, int numBands, int winSize, double
*output, OGREnvelope extent)`: `{throw ...("No implemented");}` (sic: the
source's message lacks the `t`). -/
def RSGISCalcImageStatistics.calcImageValueWindowEnvelope
    (st : RSGISCalcImageStatisticsState) (dataBlock : ℕ → ℕ → ℕ → ℝ)
    (numBands : ℤ) (winSize : ℤ) (extent : OGREnvelope) :
    Except String (RSGISCalcImageStatisticsState × List ℝ) :=
  Except.error "No implemented"

/-- `calcImageValueCondition(float ***dataBlock, int numBands, int winSize,
double *output)`: `{throw ...("Not implemented");}`. -/
def RSGISCalcImageStatistics.calcImageValueConditionWindow
    (st : RSGISCalcImageStatisticsState) (dataBlock : ℕ → ℕ → ℕ → ℝ)
    (numBands : ℤ) (winSize : ℤ) :
    Except String (RSGISCalcImageStatisticsState × List ℝ × Bool) :=
  Except.error "Not implemented"

/-! ## One-pass / two-pass standard deviation

`RSGISImageStatistics::calcImageStatistics(..., bool onePassSD)` selects between
the two standard-deviation paths of the statistics accumulator.  The bodies of
the implemented accumulation overloads are not part of these sources (only the
class declarations in `RSGISImageStatistics.h` are), so both paths are modelled
from the spec, per band, over the finite list of that band's pixel values. -/

/-- Modelled from the spec: the body of the one-pass (`onePassSD = true`)
standard-deviation accumulation of the Statistics Accumulator is not in the
sources; per the spec, "one-pass mode uses a numerically-stable incremental
(Welford-style) update".  One Welford update step: the running state holds the
contributing pixel count `n`, the running mean and the running sum of squared
deviations `m2`. -/
noncomputable def welfordStep (s : ℕ × ℝ × ℝ) (x : ℝ) : ℕ × ℝ × ℝ :=
  let np := s.1 + 1
  let delta := x - s.2.1
  let meanp := s.2.1 + delta / (np : ℝ)
  let delta2 := x - meanp
  (np, meanp, s.2.2 + delta * delta2)

/-- Modelled from the spec: the full one-pass accumulation over a band's pixel
values, starting from the empty state. -/
noncomputable def welfordFold (xs : List ℝ) : ℕ × ℝ × ℝ :=
  xs.foldl welfordStep (0, 0, 0)

/-- Modelled from the spec: the finalized one-pass standard deviation, the
square root of the accumulated sum of squared deviations over the accumulated
count. -/
noncomputable def onePassStdDev (xs : List ℝ) : ℝ :=
  Real.sqrt ((welfordFold xs).2.2 / ((welfordFold xs).1 : ℝ))

/-- Modelled from the spec: the two-pass mean, computed by the first full
iteration of the two-pass (`onePassSD = false`) path. -/
noncomputable def twoPassMean (xs : List ℝ) : ℝ := xs.sum / (xs.length : ℝ)

/-- Modelled from the spec: the two-pass standard deviation, computed by a
second full iteration accumulating squared deviations from the first-pass
mean ("two-pass naive" / "mean-then-variance"). -/
noncomputable def twoPassStdDev (xs : List ℝ) : ℝ :=
  Real.sqrt ((xs.map (fun x => (x - twoPassMean xs) ^ 2)).sum / (xs.length : ℝ))

/-- Modelled from the spec: the standard deviation the statistics accumulator
reports for one band, as selected by the `onePassSD` flag of
`RSGISImageStatistics::calcImageStatistics`. -/
noncomputable def calcImageStatisticsStdDev (onePassSD : Bool) (xs : List ℝ) : ℝ :=
  if onePassSD then onePassStdDev xs else twoPassStdDev xs

/-! ## Claim theorems -/

/-- C1: for every 3x3 window, band index, resolutions and sun angles, the
hillshade calculation `RSGISCalcHillShade::calcImageValue` computes the shade
value with the literal sun-azimuth term `sunAzimuth - M_PI/2 * degreesToRadians`:
the shade angle is `sin(aspect - (sunAzimuth - (M_PI/2) * degreesToRadians))`,
`M_PI/2` multiplied by the degrees-to-radians factor before the subtraction,
exactly as written in the source, with no unit-conversion correction applied
(`hillShadeClaimValue` spells the claim's formula). -/
theorem hillshade_uses_literal_sun_azimuth_term (band : ℕ)
    (ewRes nsRes sunZenith sunAzimuth : ℝ) (dataBlock : ℕ → ℕ → ℕ → ℝ)
    (numBands : ℕ) (winSize : ℤ) (h3 : winSize = 3) (hb : band < numBands) :
    RSGISCalcHillShade.calcImageValue band ewRes nsRes sunZenith sunAzimuth
        dataBlock numBands winSize =
      Except.ok (hillShadeClaimValue band ewRes nsRes sunZenith sunAzimuth dataBlock) := by
  subst h3
  simp only [RSGISCalcHillShade.calcImageValue, hillShadeClaimValue]
  rw [if_neg (by norm_num), if_neg (not_not_intro hb)]
  split_ifs <;> rfl

/-- Witness for C1 at a concrete flat window with sun zenith 45 and azimuth 315. -/
theorem hillshade_uses_literal_sun_azimuth_term_witness :
    RSGISCalcHillShade.calcImageValue 0 1 1 45 315 (fun _ _ _ => 0) 1 3 =
      Except.ok (hillShadeClaimValue 0 1 1 45 315 (fun _ _ _ => 0)) :=
  hillshade_uses_literal_sun_azimuth_term 0 1 1 45 315 (fun _ _ _ => 0) 1 3 rfl
    (by decide)

/-- C3: for every 3x3 window whose selected-band values are all one constant
(flat terrain) and nonzero resolutions, `RSGISCalcSlope::calcImageValue`
outputs exactly 0 (in both the degrees and the radians output mode) and
`RSGISCalcAspect::calcImageValue` outputs the NaN sentinel (`none`). -/
theorem flat_window_slope_zero_aspect_nan (c : ℝ) (band : ℕ) (ewRes nsRes : ℝ)
    (outType : ℤ) (dataBlock : ℕ → ℕ → ℕ → ℝ) (numBands : ℕ) (winSize : ℤ)
    (hu : ∀ i j, dataBlock band i j = c) (h3 : winSize = 3) (hb : band < numBands)
    (he : ewRes ≠ 0) (hn : nsRes ≠ 0) :
    RSGISCalcSlope.calcImageValue band ewRes nsRes outType dataBlock numBands winSize =
        Except.ok 0 ∧
    RSGISCalcAspect.calcImageValue band ewRes nsRes dataBlock numBands winSize =
        Except.ok none := by
  subst h3
  have hdx : slopeDx band ewRes dataBlock = 0 := by simp [slopeDx, hu]
  have hdy : slopeDy band nsRes dataBlock = 0 := by simp [slopeDy, hu]
  have hadx : aspectDx band ewRes dataBlock = 0 := by simp [aspectDx, hu]
  have hady : aspectDy band nsRes dataBlock = 0 := by simp [aspectDy, hu]
  constructor
  · simp only [RSGISCalcSlope.calcImageValue]
    rw [if_neg (by norm_num), if_neg (not_not_intro hb)]
    have hs : slopeRadians band ewRes nsRes dataBlock = 0 := by
      simp [slopeRadians, hdx, hdy]
    split_ifs <;> simp [hs]
  · simp only [RSGISCalcAspect.calcImageValue]
    rw [if_neg (by norm_num), if_neg (not_not_intro hb)]
    simp [aspectValue, aspectAdjustNeg, aspectAdjust360, hadx, hady]

/-- Witness for C3 at the constant window of value 5 with unit resolutions. -/
theorem flat_window_slope_zero_aspect_nan_witness :
    RSGISCalcSlope.calcImageValue 0 1 1 0 (fun _ _ _ => 5) 1 3 = Except.ok 0 ∧
    RSGISCalcAspect.calcImageValue 0 1 1 (fun _ _ _ => 5) 1 3 = Except.ok none :=
  flat_window_slope_zero_aspect_nan 5 0 1 1 0 (fun _ _ _ => 5) 1 3
    (fun _ _ => rfl) rfl (by decide) one_ne_zero one_ne_zero

/-- C5 counterexample: the window size 5 is odd and at least 1, yet both the
slope and the aspect calculation reject it with the window-size error — the
check in the source is `winSize != 3`, not `W even or W < 1`. -/
theorem window_size_five_rejected :
    (5 : ℤ) % 2 = 1 ∧ (1 : ℤ) ≤ 5 ∧
    RSGISCalcSlope.calcImageValue 0 1 1 0 (fun _ _ _ => 0) 1 5 =
      Except.error winSizeErrMsg ∧
    RSGISCalcAspect.calcImageValue 0 1 1 (fun _ _ _ => 0) 1 5 =
      Except.error winSizeErrMsg :=
  ⟨by decide, by decide, rfl, rfl⟩

/-- C5 amended: the per-window slope and aspect calculations fail with the
window-size configuration error exactly when the supplied window size differs
from 3 (the hard-coded window size); in particular every odd window size other
than 3 is also rejected. -/
theorem window_size_error_iff_not_three (band : ℕ) (ewRes nsRes : ℝ)
    (outType : ℤ) (dataBlock : ℕ → ℕ → ℕ → ℝ) (numBands : ℕ) (winSize : ℤ) :
    (RSGISCalcSlope.calcImageValue band ewRes nsRes outType dataBlock numBands winSize =
        Except.error winSizeErrMsg ↔ winSize ≠ 3) ∧
    (RSGISCalcAspect.calcImageValue band ewRes nsRes dataBlock numBands winSize =
        Except.error winSizeErrMsg ↔ winSize ≠ 3) := by
  have hmsg : bandErrMsg ≠ winSizeErrMsg := by decide
  constructor
  · by_cases h : winSize = 3
    · subst h
      refine iff_of_false ?_ (by norm_num)
      simp only [RSGISCalcSlope.calcImageValue]
      rw [if_neg (by norm_num)]
      split_ifs <;> simp_all [winSizeErrMsg, bandErrMsg]
    · refine iff_of_true ?_ h
      simp only [RSGISCalcSlope.calcImageValue]
      rw [if_pos h]
  · by_cases h : winSize = 3
    · subst h
      refine iff_of_false ?_ (by norm_num)
      simp only [RSGISCalcAspect.calcImageValue]
      rw [if_neg (by norm_num)]
      split_ifs <;> simp_all [winSizeErrMsg, bandErrMsg]
    · refine iff_of_true ?_ h
      simp only [RSGISCalcAspect.calcImageValue]
      rw [if_pos h]

/-- C9 helper: the aspect value when the gradient is nonzero, before and after
the range adjustments. -/
lemma aspectValue_eq_of_grad_ne (band : ℕ) (ewRes nsRes : ℝ)
    (dataBlock : ℕ → ℕ → ℕ → ℝ)
    (hgrad : ¬ (aspectDx band ewRes dataBlock = 0 ∧ aspectDy band nsRes dataBlock = 0)) :
    aspectValue band ewRes nsRes dataBlock =
      (if atan2 (-(aspectDx band ewRes dataBlock)) (aspectDy band nsRes dataBlock) *
            radiansToDegrees < 0 then
        some (atan2 (-(aspectDx band ewRes dataBlock)) (aspectDy band nsRes dataBlock) *
          radiansToDegrees + 360)
      else
        some (atan2 (-(aspectDx band ewRes dataBlock)) (aspectDy band nsRes dataBlock) *
          radiansToDegrees)) := by
  have harg_le : atan2 (-(aspectDx band ewRes dataBlock)) (aspectDy band nsRes dataBlock) ≤
      Real.pi := Complex.arg_le_pi _
  have hr2d : (0 : ℝ) < radiansToDegrees := by
    rw [radiansToDegrees]
    positivity
  have hpi180 : Real.pi * radiansToDegrees = 180 := by
    rw [radiansToDegrees]
    field_simp
  have ha0le : atan2 (-(aspectDx band ewRes dataBlock)) (aspectDy band nsRes dataBlock) *
      radiansToDegrees ≤ 180 := by
    calc atan2 (-(aspectDx band ewRes dataBlock)) (aspectDy band nsRes dataBlock) *
        radiansToDegrees ≤ Real.pi * radiansToDegrees :=
          mul_le_mul_of_nonneg_right harg_le hr2d.le
    _ = 180 := hpi180
  simp only [aspectValue]
  rw [if_neg hgrad]
  by_cases hneg : atan2 (-(aspectDx band ewRes dataBlock)) (aspectDy band nsRes dataBlock) *
      radiansToDegrees < 0
  · rw [if_pos hneg]
    simp only [aspectAdjustNeg]
    rw [if_pos hneg]
    simp only [aspectAdjust360]
    exact if_neg (by intro hc; linarith)
  · rw [if_neg hneg]
    simp only [aspectAdjustNeg]
    rw [if_neg hneg]
    simp only [aspectAdjust360]
    exact if_neg (by intro hc; linarith)

/-- C9: for every 3x3 window, valid band index and nonzero resolutions with a
nonzero aspect gradient `(dx, dy)`, the aspect written by
`RSGISCalcAspect::calcImageValue` is a real value in `[0, 360)`: the negative
`atan2` results are shifted by `+360` and an exact `360.0` is mapped to `0.0`. -/
theorem aspect_output_in_range (band : ℕ) (ewRes nsRes : ℝ)
    (dataBlock : ℕ → ℕ → ℕ → ℝ) (numBands : ℕ) (winSize : ℤ)
    (h3 : winSize = 3) (hb : band < numBands)
    (hgrad : ¬ (aspectDx band ewRes dataBlock = 0 ∧ aspectDy band nsRes dataBlock = 0))
    (he : ewRes ≠ 0) (hn : nsRes ≠ 0) :
    RSGISCalcAspect.calcImageValue band ewRes nsRes dataBlock numBands winSize =
        Except.ok (some ((aspectValue band ewRes nsRes dataBlock).getD 0)) ∧
    0 ≤ (aspectValue band ewRes nsRes dataBlock).getD 0 ∧
    (aspectValue band ewRes nsRes dataBlock).getD 0 < 360 := by
  subst h3
  have harg_le : atan2 (-(aspectDx band ewRes dataBlock)) (aspectDy band nsRes dataBlock) ≤
      Real.pi := Complex.arg_le_pi _
  have harg_gt : -Real.pi < atan2 (-(aspectDx band ewRes dataBlock)) (aspectDy band nsRes dataBlock) :=
    Complex.neg_pi_lt_arg _
  have hr2d : (0 : ℝ) < radiansToDegrees := by
    rw [radiansToDegrees]
    positivity
  have hpi180 : Real.pi * radiansToDegrees = 180 := by
    rw [radiansToDegrees]
    field_simp
  have ha0le : atan2 (-(aspectDx band ewRes dataBlock)) (aspectDy band nsRes dataBlock) *
      radiansToDegrees ≤ 180 := by
    calc atan2 (-(aspectDx band ewRes dataBlock)) (aspectDy band nsRes dataBlock) *
        radiansToDegrees ≤ Real.pi * radiansToDegrees :=
          mul_le_mul_of_nonneg_right harg_le hr2d.le
    _ = 180 := hpi180
  have ha0gt : -180 < atan2 (-(aspectDx band ewRes dataBlock)) (aspectDy band nsRes dataBlock) *
      radiansToDegrees := by
    have hstep := mul_lt_mul_of_pos_right harg_gt hr2d
    calc (-180 : ℝ) = -Real.pi * radiansToDegrees := by rw [neg_mul, hpi180]
    _ < atan2 (-(aspectDx band ewRes dataBlock)) (aspectDy band nsRes dataBlock) *
        radiansToDegrees := hstep
  have hval := aspectValue_eq_of_grad_ne band ewRes nsRes dataBlock hgrad
  by_cases hneg : atan2 (-(aspectDx band ewRes dataBlock)) (aspectDy band nsRes dataBlock) *
      radiansToDegrees < 0
  · rw [if_pos hneg] at hval
    refine ⟨?_, ?_, ?_⟩
    · simp only [RSGISCalcAspect.calcImageValue]
      rw [if_neg (by norm_num), if_neg (not_not_intro hb), hval]
      rfl
    · rw [hval, Option.getD_some]
      linarith
    · rw [hval, Option.getD_some]
      linarith
  · rw [if_neg hneg] at hval
    refine ⟨?_, ?_, ?_⟩
    · simp only [RSGISCalcAspect.calcImageValue]
      rw [if_neg (by norm_num), if_neg (not_not_intro hb), hval]
      rfl
    · rw [hval, Option.getD_some]
      linarith
    · rw [hval, Option.getD_some]
      linarith

/-- Witness for C9 at a window rising northwards (gradient `(0, 8)`). -/
theorem aspect_output_in_range_witness :
    RSGISCalcAspect.calcImageValue 0 1 1 (fun _ i _ => (i : ℝ)) 1 3 =
        Except.ok (some ((aspectValue 0 1 1 (fun _ i _ => (i : ℝ))).getD 0)) ∧
    0 ≤ (aspectValue 0 1 1 (fun _ i _ => (i : ℝ))).getD 0 ∧
    (aspectValue 0 1 1 (fun _ i _ => (i : ℝ))).getD 0 < 360 :=
  aspect_output_in_range 0 1 1 (fun _ i _ => (i : ℝ)) 1 3 rfl (by decide)
    (by intro hc; have := hc.2; norm_num [aspectDy] at this)
    one_ne_zero one_ne_zero

/-- C4 helper: the aspect value is the NaN sentinel exactly on the degenerate
(flat) gradient. -/
lemma aspectValue_eq_none_iff (band : ℕ) (ewRes nsRes : ℝ)
    (dataBlock : ℕ → ℕ → ℕ → ℝ) :
    aspectValue band ewRes nsRes dataBlock = none ↔
      aspectDx band ewRes dataBlock = 0 ∧ aspectDy band nsRes dataBlock = 0 := by
  by_cases h : aspectDx band ewRes dataBlock = 0 ∧ aspectDy band nsRes dataBlock = 0
  · simp only [aspectValue]
    rw [if_pos h]
    simp [aspectAdjustNeg, aspectAdjust360, h]
  · simp only [aspectValue]
    rw [if_neg h]
    simp only [aspectAdjustNeg]
    constructor
    · intro hc
      exfalso
      revert hc
      split_ifs <;> simp [aspectAdjust360] <;> split_ifs <;> simp
    · intro hc
      exact absurd hc h

/-- C4 helper: the pre-substitution incidence/exitance value is NaN exactly when
the aspect is NaN, i.e. on the degenerate flat gradient. -/
lemma rayAngleRawValue_eq_none_iff (band : ℕ) (ewRes nsRes zenith azimuth : ℝ)
    (dataBlock : ℕ → ℕ → ℕ → ℝ) :
    rayAngleRawValue band ewRes nsRes zenith azimuth dataBlock = none ↔
      aspectDx band ewRes dataBlock = 0 ∧ aspectDy band nsRes dataBlock = 0 := by
  rw [← aspectValue_eq_none_iff band ewRes nsRes dataBlock]
  unfold rayAngleRawValue
  cases hA : aspectValue band ewRes nsRes dataBlock <;> simp [hA]

/-- C4: for every 3x3 window and valid band index, both ray-angle units return
normally (`Except.ok`): `RSGISCalcRayIncidentAngle::calcImageValue` substitutes
the sun zenith angle when its angle computation produces NaN (`none`) and
otherwise outputs the computed angle, `RSGISCalcRayExitanceAngle::calcImageValue`
substitutes 0 when its computation produces NaN, and the NaN case is exactly the
degenerate flat geometry (zero aspect gradient). -/
theorem ray_angle_nan_substitution (band : ℕ)
    (ewRes nsRes sunZenith sunAzimuth viewZenith viewAzimuth : ℝ)
    (dataBlock : ℕ → ℕ → ℕ → ℝ) (numBands : ℕ) (winSize : ℤ)
    (h3 : winSize = 3) (hb : band < numBands) :
    RSGISCalcRayIncidentAngle.calcImageValue band ewRes nsRes sunZenith sunAzimuth
        dataBlock numBands winSize =
      Except.ok ((rayAngleRawValue band ewRes nsRes sunZenith sunAzimuth dataBlock).getD
        sunZenith) ∧
    RSGISCalcRayExitanceAngle.calcImageValue band ewRes nsRes viewZenith viewAzimuth
        dataBlock numBands winSize =
      Except.ok ((rayAngleRawValue band ewRes nsRes viewZenith viewAzimuth dataBlock).getD
        0) ∧
    (rayAngleRawValue band ewRes nsRes sunZenith sunAzimuth dataBlock = none ↔
      aspectDx band ewRes dataBlock = 0 ∧ aspectDy band nsRes dataBlock = 0) ∧
    (rayAngleRawValue band ewRes nsRes viewZenith viewAzimuth dataBlock = none ↔
      aspectDx band ewRes dataBlock = 0 ∧ aspectDy band nsRes dataBlock = 0) := by
  subst h3
  refine ⟨?_, ?_, rayAngleRawValue_eq_none_iff band ewRes nsRes sunZenith sunAzimuth dataBlock,
    rayAngleRawValue_eq_none_iff band ewRes nsRes viewZenith viewAzimuth dataBlock⟩
  · simp only [RSGISCalcRayIncidentAngle.calcImageValue]
    rw [if_neg (by norm_num), if_neg (not_not_intro hb)]
    cases hR : rayAngleRawValue band ewRes nsRes sunZenith sunAzimuth dataBlock <;>
      simp [hR]
  · simp only [RSGISCalcRayExitanceAngle.calcImageValue]
    rw [if_neg (by norm_num), if_neg (not_not_intro hb)]
    cases hR : rayAngleRawValue band ewRes nsRes viewZenith viewAzimuth dataBlock <;>
      simp [hR]

/-- Witness for C4 at the constant (flat) window of value 2, sun zenith 45,
sun azimuth 135, view zenith 10 and view azimuth 90. -/
theorem ray_angle_nan_substitution_witness :
    RSGISCalcRayIncidentAngle.calcImageValue 0 1 1 45 135 (fun _ _ _ => 2) 1 3 =
      Except.ok ((rayAngleRawValue 0 1 1 45 135 (fun _ _ _ => 2)).getD 45) ∧
    RSGISCalcRayExitanceAngle.calcImageValue 0 1 1 10 90 (fun _ _ _ => 2) 1 3 =
      Except.ok ((rayAngleRawValue 0 1 1 10 90 (fun _ _ _ => 2)).getD 0) ∧
    (rayAngleRawValue 0 1 1 45 135 (fun _ _ _ => 2) = none ↔
      aspectDx 0 1 (fun _ _ _ => 2) = 0 ∧ aspectDy 0 1 (fun _ _ _ => 2) = 0) ∧
    (rayAngleRawValue 0 1 1 10 90 (fun _ _ _ => 2) = none ↔
      aspectDx 0 1 (fun _ _ _ => 2) = 0 ∧ aspectDy 0 1 (fun _ _ _ => 2) = 0) :=
  ray_angle_nan_substitution 0 1 1 45 135 10 90 (fun _ _ _ => 2) 1 3 rfl (by decide)

/-- C10: for every window passed to `RSGISFillDEMHoles::calcImageValue` with
`numBands = 3`: when the centre pixel of band 0 differs from `holeValue`, the
three outputs are set to the centre pixels of bands 0, 1 and 2 and every other
output entry keeps its prior value; when the centre pixel of band 0 equals
`holeValue`, the output buffer is returned entirely untouched; and in both
cases the returned change flag is the flag passed in — `calcImageValue` never
sets it to `true`. -/
theorem fillDEMHoles_writes_centre_or_nothing (holeValue : ℝ)
    (dataBlock : ℕ → ℕ → ℕ → ℝ) (numBands : ℕ) (winSize : ℤ)
    (output : ℕ → ℝ) (change : Bool) (h : numBands = 3) :
    RSGISFillDEMHoles.calcImageValue holeValue dataBlock numBands winSize output change =
      Except.ok
        ((if dataBlock 0 (Int.fdiv winSize 2).toNat (Int.fdiv winSize 2).toNat = holeValue
          then output
          else fun j =>
            if j = 0 then dataBlock 0 (Int.fdiv winSize 2).toNat (Int.fdiv winSize 2).toNat
            else if j = 1 then dataBlock 1 (Int.fdiv winSize 2).toNat (Int.fdiv winSize 2).toNat
            else if j = 2 then dataBlock 2 (Int.fdiv winSize 2).toNat (Int.fdiv winSize 2).toNat
            else output j),
         change) := by
  subst h
  simp only [RSGISFillDEMHoles.calcImageValue]
  rw [if_neg (by norm_num)]
  split_ifs <;> rfl

/-- Witness for C10 at a 3x3 window whose band-0 centre (value 0) differs from
the hole value -9999. -/
theorem fillDEMHoles_writes_centre_or_nothing_witness :
    RSGISFillDEMHoles.calcImageValue (-9999) (fun b _ _ => (b : ℝ)) 3 3
        (fun _ => 7) false =
      Except.ok
        ((if (fun (b _ _ : ℕ) => (b : ℝ)) 0 (Int.fdiv 3 2).toNat (Int.fdiv 3 2).toNat = -9999
          then fun _ => 7
          else fun j =>
            if j = 0 then (fun (b _ _ : ℕ) => (b : ℝ)) 0 (Int.fdiv 3 2).toNat (Int.fdiv 3 2).toNat
            else if j = 1 then (fun (b _ _ : ℕ) => (b : ℝ)) 1 (Int.fdiv 3 2).toNat (Int.fdiv 3 2).toNat
            else if j = 2 then (fun (b _ _ : ℕ) => (b : ℝ)) 2 (Int.fdiv 3 2).toNat (Int.fdiv 3 2).toNat
            else (fun (_ : ℕ) => (7 : ℝ)) j),
         false) :=
  fillDEMHoles_writes_centre_or_nothing (-9999) (fun b _ _ => (b : ℝ)) 3 3
    (fun _ => 7) false rfl

/-- C2: counter to the scoped-acquisition guarantee, `executeLandsatTMCloudFMask`
leaves all four successfully opened datasets open when the saturation band-count
check fails (the source's `GDALClose` calls inside that `if` body sit after the
`throw` and are unreachable), and `executeConvertLandsat2Radiance` leaves every
previously opened dataset open when a later `GDALOpen` fails. -/
theorem open_handles_leak_on_error_exit :
    ((executeLandsatTMCloudFMask true "toa.tif" true 7 true "thermal.tif" 1
        true "saturate.tif" 9 true "valid.tif").result =
      Except.error "The number of saturation bands is not equal to the number of refl and thermal bands." ∧
     (executeLandsatTMCloudFMask true "toa.tif" true 7 true "thermal.tif" 1
        true "saturate.tif" 9 true "valid.tif").openHandles =
      ["toa.tif", "thermal.tif", "saturate.tif", "valid.tif"]) ∧
    ((executeConvertLandsat2Radiance
        [{ imagePath := "b1.tif", bandName := "B1", band := 1, lMin := 0, lMax := 0,
           qCalMin := 0, qCalMax := 0, openOk := true, numRasterBands := 1 },
         { imagePath := "b2.tif", bandName := "B2", band := 1, lMin := 0, lMax := 0,
           qCalMin := 0, qCalMax := 0, openOk := false, numRasterBands := 1 }]).result =
      Except.error "Could not open image b2.tif" ∧
     (executeConvertLandsat2Radiance
        [{ imagePath := "b1.tif", bandName := "B1", band := 1, lMin := 0, lMax := 0,
           qCalMin := 0, qCalMax := 0, openOk := true, numRasterBands := 1 },
         { imagePath := "b2.tif", bandName := "B2", band := 1, lMin := 0, lMax := 0,
           qCalMin := 0, qCalMax := 0, openOk := false, numRasterBands := 1 }]).openHandles =
      ["b1.tif"]) :=
  ⟨⟨rfl, rfl⟩, rfl, rfl⟩

/-- C7 helper: when every `GDALOpen` succeeds and some band description names a
band beyond its image's band count, the opening loop of
`executeConvertLandsat2Radiance` throws the band-range message. -/
lemma convertLandsat2RadianceOpenLoop_error_of_bad_band
    (specs : List CmdsLandsatRadianceGainsOffsets) (opened : List String)
    (hopen : ∀ s ∈ specs, s.openOk = true)
    (hbad : ∃ s ∈ specs, s.numRasterBands < s.band) :
    (convertLandsat2RadianceOpenLoop specs opened).1 =
      Except.error "You have specified a band which is not within the image" := by
  induction specs generalizing opened with
  | nil =>
    obtain ⟨s, hs, _⟩ := hbad
    exact absurd hs (List.not_mem_nil s)
  | cons s rest ih =>
    have hs : s.openOk = true := hopen s (List.mem_cons_self s rest)
    unfold convertLandsat2RadianceOpenLoop
    rw [hs, if_neg (by simp)]
    by_cases hband : s.numRasterBands < s.band
    · rw [if_pos hband]
    · rw [if_neg hband]
      apply ih
      · intro t ht
        exact hopen t (List.mem_cons_of_mem s ht)
      · obtain ⟨t, ht, htb⟩ := hbad
        rcases List.mem_cons.mp ht with heq | hmem
        · subst heq
          exact absurd htb hband
        · exact ⟨t, hmem, htb⟩

/-- C7: a run of `executeConvertLandsat2Radiance` in which some specified band
index exceeds its input image's band count aborts with the descriptive
band-range message before the output-producing `calcImage` call, and a run of
`executeConvertRadiance2TOARefl` in which the number of supplied solar
irradiance values differs from the input image's band count aborts with the
descriptive mismatch message before any output pixel is produced. -/
theorem config_errors_abort_before_output
    (specs : List CmdsLandsatRadianceGainsOffsets)
    (hopen : ∀ s ∈ specs, s.openOk = true)
    (hbad : ∃ s ∈ specs, s.numRasterBands < s.band)
    (toaOpenOk : Bool) (inputImage : String) (numRasterBands numBands : ℕ)
    (htoa : toaOpenOk = true) (hcoeff : numBands ≠ numRasterBands) :
    (executeConvertLandsat2Radiance specs).result =
        Except.error "You have specified a band which is not within the image" ∧
    (executeConvertLandsat2Radiance specs).outputProduced = false ∧
    (executeConvertRadiance2TOARefl toaOpenOk inputImage numRasterBands numBands).result =
        Except.error "The number of input image bands and solar irradiance values are different." ∧
    (executeConvertRadiance2TOARefl toaOpenOk inputImage numRasterBands
        numBands).outputProduced = false := by
  have hloop := convertLandsat2RadianceOpenLoop_error_of_bad_band specs [] hopen hbad
  rcases hE : convertLandsat2RadianceOpenLoop specs [] with ⟨res, opened⟩
  rw [hE] at hloop
  dsimp only at hloop
  subst hloop
  subst htoa
  refine ⟨?_, ?_, ?_, ?_⟩
  · unfold executeConvertLandsat2Radiance
    rw [hE]
  · unfold executeConvertLandsat2Radiance
    rw [hE]
  · unfold executeConvertRadiance2TOARefl
    rw [if_neg (by simp), if_pos hcoeff]
  · unfold executeConvertRadiance2TOARefl
    rw [if_neg (by simp), if_pos hcoeff]

/-- Witness for C7: one band description asking for band 2 of a one-band image,
and a TOA-reflectance run supplying 2 irradiance values for a 3-band image. -/
theorem config_errors_abort_before_output_witness :
    (executeConvertLandsat2Radiance
        [{ imagePath := "b1.tif", bandName := "B1", band := 2, lMin := 0, lMax := 0,
           qCalMin := 0, qCalMax := 0, openOk := true, numRasterBands := 1 }]).result =
        Except.error "You have specified a band which is not within the image" ∧
    (executeConvertLandsat2Radiance
        [{ imagePath := "b1.tif", bandName := "B1", band := 2, lMin := 0, lMax := 0,
           qCalMin := 0, qCalMax := 0, openOk := true, numRasterBands := 1 }]).outputProduced = false ∧
    (executeConvertRadiance2TOARefl true "rad.tif" 3 2).result =
        Except.error "The number of input image bands and solar irradiance values are different." ∧
    (executeConvertRadiance2TOARefl true "rad.tif" 3 2).outputProduced = false :=
  config_errors_abort_before_output
    [{ imagePath := "b1.tif", bandName := "B1", band := 2, lMin := 0, lMax := 0,
       qCalMin := 0, qCalMax := 0, openOk := true, numRasterBands := 1 }]
    (by intro s hs; rw [List.mem_singleton] at hs; subst hs; rfl)
    ⟨_, List.mem_singleton_self _, by decide⟩
    true "rad.tif" 3 2 rfl (by decide)

/-- C6: every iteration-protocol overload that `RSGISCalcImageStatistics` does
not support — the output-vector, int/float, envelope and window variants —
fails fast with the not-implemented error for every state and every argument,
producing no output value and leaving the accumulator state untouched (the
window-with-envelope overload's message is the source's misspelt
`"No implemented"`). -/
theorem calcImageStatistics_unsupported_overloads_throw
    (st : RSGISCalcImageStatisticsState) (bandValues : List ℝ) (numBands : ℤ)
    (intBandValues : List ℤ) (numIntVals : ℕ) (floatBandValues : List ℝ)
    (numfloatVals : ℕ) (extent : OGREnvelope) (dataBlock : ℕ → ℕ → ℕ → ℝ)
    (winSize : ℤ) :
    RSGISCalcImageStatistics.calcImageValueBandsOutput st bandValues numBands =
        Except.error "Not implemented" ∧
    RSGISCalcImageStatistics.calcImageValueIntFloat st intBandValues numIntVals
        floatBandValues numfloatVals = Except.error "Not implemented" ∧
    RSGISCalcImageStatistics.calcImageValueIntFloatOutput st intBandValues numIntVals
        floatBandValues numfloatVals = Except.error "Not implemented" ∧
    RSGISCalcImageStatistics.calcImageValueIntFloatEnvelope st intBandValues numIntVals
        floatBandValues numfloatVals extent = Except.error "Not implemented" ∧
    RSGISCalcImageStatistics.calcImageValueBandsEnvelope st bandValues numBands extent =
        Except.error "Not implemented" ∧
    RSGISCalcImageStatistics.calcImageValueBandsOutputEnvelope st bandValues numBands
        extent = Except.error "Not implemented" ∧
    RSGISCalcImageStatistics.calcImageValueWindow st dataBlock numBands winSize =
        Except.error "Not implemented" ∧
    RSGISCalcImageStatistics.calcImageValueWindowEnvelope st dataBlock numBands winSize
        extent = Except.error "No implemented" ∧
    RSGISCalcImageStatistics.calcImageValueConditionWindow st dataBlock numBands winSize =
        Except.error "Not implemented" :=
  ⟨rfl, rfl, rfl, rfl, rfl, rfl, rfl, rfl, rfl⟩

/-- C8 helper: closed form of the Welford accumulation state - the count is the
list length, the running mean is the arithmetic mean, and the accumulated sum of
squared deviations is the sum of squares minus the squared sum over the count. -/
lemma welfordFold_closed_form (xs : List ℝ) :
    (welfordFold xs).1 = xs.length ∧
    (welfordFold xs).2.1 = xs.sum / (xs.length : ℝ) ∧
    (welfordFold xs).2.2 =
      (xs.map (fun x => x ^ 2)).sum - xs.sum ^ 2 / (xs.length : ℝ) := by
  induction xs using List.reverseRecOn with
  | nil => simp [welfordFold]
  | append_singleton xs x ih =>
    obtain ⟨hn, hmean, hm2⟩ := ih
    have hstep : welfordFold (xs ++ [x]) = welfordStep (welfordFold xs) x := by
      simp [welfordFold, List.foldl_append]
    rcases eq_or_ne xs [] with hxs | hxs
    · subst hxs
      simp [hstep, welfordFold, welfordStep]
    · have hL0 : xs.length ≠ 0 := fun hc => hxs (List.length_eq_zero.mp hc)
      have hL : (xs.length : ℝ) ≠ 0 := Nat.cast_ne_zero.mpr hL0
      have hL1 : ((xs.length : ℝ) + 1) ≠ 0 := by positivity
      refine ⟨?_, ?_, ?_⟩
      · rw [hstep]
        simp [welfordStep, hn]
      · rw [hstep]
        simp only [welfordStep, hn, hmean, List.sum_append, List.length_append,
          List.sum_cons, List.sum_nil, List.length_cons, List.length_nil]
        push_cast
        field_simp
        ring
      · rw [hstep]
        simp only [welfordStep, hn, hmean, hm2, List.sum_append, List.length_append,
          List.map_append, List.sum_cons, List.sum_nil, List.length_cons,
          List.length_nil, List.map_cons, List.map_nil]
        push_cast
        field_simp
        ring

/-- C8 helper: expansion of the sum of squared deviations around a fixed value. -/
lemma sum_sq_dev (xs : List ℝ) (m : ℝ) :
    (xs.map (fun x => (x - m) ^ 2)).sum =
      (xs.map (fun x => x ^ 2)).sum - 2 * m * xs.sum + (xs.length : ℝ) * m ^ 2 := by
  induction xs with
  | nil => simp
  | cons a t ih =>
    simp only [List.map_cons, List.sum_cons, List.length_cons, ih]
    push_cast
    ring

/-- C8: for every finite, nodata-free input (every band value of the run), the
standard deviation computed by the one-pass (`onePassSD = true`) path of the
statistics accumulator agrees with the standard deviation computed by the
two-pass path to within 1e-6 relative tolerance (over the reals the two paths
coincide exactly, so the difference is 0). -/
theorem onePass_twoPass_stddev_agree (xs : List ℝ) :
    |calcImageStatisticsStdDev true xs - calcImageStatisticsStdDev false xs| ≤
      1 / 1000000 * |calcImageStatisticsStdDev false xs| := by
  have hvar : (welfordFold xs).2.2 / ((welfordFold xs).1 : ℝ) =
      (xs.map (fun x => (x - twoPassMean xs) ^ 2)).sum / (xs.length : ℝ) := by
    obtain ⟨hn, hmean, hm2⟩ := welfordFold_closed_form xs
    rw [hn, hm2, sum_sq_dev, twoPassMean]
    rcases eq_or_ne xs [] with hxs | hxs
    · subst hxs
      simp
    · have hL : (xs.length : ℝ) ≠ 0 :=
        Nat.cast_ne_zero.mpr (fun hc => hxs (List.length_eq_zero.mp hc))
      field_simp
      ring
  have heq : onePassStdDev xs = twoPassStdDev xs := by
    unfold onePassStdDev twoPassStdDev
    rw [hvar]
  have h1 : calcImageStatisticsStdDev true xs = onePassStdDev xs := rfl
  have h2 : calcImageStatisticsStdDev false xs = twoPassStdDev xs := rfl
  rw [h1, h2, heq, sub_self, abs_zero]
  positivity
